import Mathlib

/-!
Shallow embedding of the Supervisor Agent application
(`app/config.py`, `app/services.py`, `app/tools.py`, `app/main.py`,
`app/exceptions.py`).

Modelling conventions:
* Python `None` / optional dict keys become `Option`; Python string
  truthiness (`if not s`) is `truthyOpt` (empty string and `None` are falsy).
* Python exceptions become `Except String` results (the string is the
  exception text); `raise` before a mutation means the error constructor
  carries no successor state.
* The mutable `AgentService` object is explicit state passed in and
  returned; `self._agents` (an insertion-ordered dict with unique keys)
  is an association list; Python object identity of each `Agent(...)`
  construction is modelled by a `uid : Nat` drawn from a freshness
  counter `nextId`, incremented once per construction.
* `threading.Lock` makes each `get_or_create_agent` body atomic, so any
  concurrent execution is equivalent to some sequential interleaving of
  whole calls; theorems quantify over such sequential traces.
* `uuid.uuid4()` is modelled as an injective fresh-identifier supply
  `genUUID : Nat → String` (call number → identifier): the uuid4 contract
  used by the code is exactly non-emptiness and freshness.
* Wall-clock timestamps (`datetime.now(...)`) are an abstract `ts : String`
  parameter.
-/

/-- Python truthiness of an optional string: `None` and `""` are falsy. -/
def truthyOpt : Option String → Bool
  | none => false
  | some s => s ≠ ""

/-- Python `a or b` for an optional string `a` and a string default `b`. -/
def pyOr (a : Option String) (b : String) : String :=
  match a with
  | some s => if s = "" then b else s
  | none => b

/-- Python `str.strip()`: drop leading and trailing whitespace (a
structurally recursive equivalent of `String.trim`, kept kernel-reducible
so concrete witnesses evaluate). -/
def pyStrip (s : String) : String :=
  String.mk (((s.data.dropWhile Char.isWhitespace).reverse.dropWhile
    Char.isWhitespace).reverse)

/-- Model of Python `str.split(sep)` for a non-empty separator, on char
lists with the list length as structural fuel (each step consumes at least
one character, so the fuel never runs out): scan left to right, emit the
accumulated chunk and skip the separator at each non-overlapping
occurrence, emit the trailing chunk at the end. -/
def pySplitAux (sep : List Char) : Nat → List Char → List Char →
    List (List Char)
  | _, [], acc => [acc.reverse]
  | 0, l, acc => [acc.reverse ++ l]
  | fuel + 1, c :: rest, acc =>
    if sep.isPrefixOf (c :: rest) then
      acc.reverse :: pySplitAux sep fuel (List.drop sep.length (c :: rest)) []
    else
      pySplitAux sep fuel rest (c :: acc)

/-- Python `s.split(sep)`. -/
def pySplit (s sep : String) : List String :=
  (pySplitAux sep.data s.data.length s.data []).map String.mk

/-- Python `pat in s` substring test, via the same `split` primitive the
source uses: `pat` occurs in `s` iff splitting on it yields ≥ 2 parts. -/
def pyContains (s pat : String) : Bool :=
  (pySplit s pat).length != 1

/-- Model of `uuid.uuid4()` as an injective fresh-identifier supply indexed
by call number. -/
def genUUID (n : Nat) : String :=
  String.mk (List.replicate (n + 1) 'u')

theorem genUUID_ne_empty (n : Nat) : genUUID n ≠ "" := by
  simp [genUUID, String.ext_iff]

theorem genUUID_injective : Function.Injective genUUID := by
  intro m n h
  simpa [genUUID, String.ext_iff, List.replicate_left_injective] using h

/-! ## `app/config.py` -/

/-- `session_mode: Literal["in_memory", "agentcore_memory"]`. -/
inductive SessionMode where
  | in_memory
  | agentcore_memory
deriving DecidableEq, Repr

/-- `Settings` from `app/config.py`, with the source defaults. -/
structure Settings where
  app_name : String := "Supervisor Agent"
  app_version : String := "1.0.0"
  model_id : String := "us.anthropic.claude-3-5-haiku-20241022-v1:0"
  temperature : Rat := (1 : Rat) / 10
  max_tokens : Nat := 512
  aws_region : String := "us-west-2"
  aws_profile : Option String := none
  session_mode : SessionMode := .in_memory
  conversation_window_size : Nat := 20
  agentcore_memory_id : Option String := none
  agentcore_memory_region : Option String := none
  knowledge_base_id : Option String := none
deriving DecidableEq, Repr

/-! ## `app/services.py` — data model -/

/-- Keyword arguments of the `BedrockModel(**model_kwargs)` construction. -/
structure BedrockModel where
  model_id : String
  region_name : String
  temperature : Rat
  max_tokens : Nat
  profile_name : Option String
deriving DecidableEq, Repr

/-- `SlidingWindowConversationManager(...)` construction arguments. -/
structure SlidingWindowConversationManager where
  window_size : Nat
  should_truncate_results : Bool
deriving DecidableEq, Repr

/-- `AgentCoreMemoryConfig(...)` construction arguments. -/
structure AgentCoreMemoryConfig where
  memory_id : String
  session_id : String
  actor_id : String
deriving DecidableEq, Repr

/-- `AgentCoreMemorySessionManager(...)` construction arguments. -/
structure AgentCoreMemorySessionManager where
  agentcore_memory_config : AgentCoreMemoryConfig
  region_name : String
deriving DecidableEq, Repr

/-- One block of the `system_prompt` list (`SystemContentBlock`). -/
inductive SystemContentBlock where
  | text (s : String)
  | cachePoint
deriving DecidableEq, Repr

/-- A Strands `Agent(...)` as constructed in `get_or_create_agent`; `uid`
models Python object identity (each constructor call yields a fresh one). -/
structure Agent where
  uid : Nat
  model : BedrockModel
  tools : List String
  system_prompt : List SystemContentBlock
  conversation_manager : SlidingWindowConversationManager
  session_manager : Option AgentCoreMemorySessionManager
deriving DecidableEq, Repr

/-- The mutable state of an `AgentService` instance: its settings, the
session table `self._agents`, and the freshness counter for object
identities. -/
structure AgentService where
  settings : Settings
  agents : List (String × Agent)
  nextId : Nat
deriving DecidableEq, Repr

/-- A fresh `AgentService(settings)`. -/
def AgentService.mk0 (settings : Settings) : AgentService :=
  { settings := settings, agents := [], nextId := 0 }

/-- `AgentService._create_session_manager` (services.py lines 30–63). -/
def AgentService.create_session_manager (svc : AgentService)
    (session_id : String) (actor_id : Option String) :
    Except String (Option AgentCoreMemorySessionManager) :=
  if svc.settings.session_mode = SessionMode.agentcore_memory then
    if truthyOpt svc.settings.agentcore_memory_id then
      Except.ok (some
        { agentcore_memory_config :=
            { memory_id := svc.settings.agentcore_memory_id.getD ""
              session_id := session_id
              actor_id := pyOr actor_id "default_user" }
          region_name :=
            pyOr svc.settings.agentcore_memory_region svc.settings.aws_region })
    else
      Except.error
        "agentcore_memory_id is required when session_mode is agentcore_memory"
  else
    Except.ok none

/-- The source text of the supervisor system prompt. -/
def supervisorSystemPrompt : String :=
  "You are a helpful AI assistant with access to a knowledge base. Use the retrieve tool to search for relevant information when answering questions. Answer directly and concisely based on the retrieved information."

/-- `AgentService.get_or_create_agent` (services.py lines 65–127). The whole
body runs under `self._lock`, so one call is one atomic step. On the error
path (`_create_session_manager` raising) nothing has been written to
`self._agents`, hence the error constructor carries no successor state. -/
def AgentService.get_or_create_agent (svc : AgentService)
    (session_id : String) (actor_id : Option String) :
    Except String (AgentService × Agent) :=
  match List.lookup session_id svc.agents with
  | some agent => Except.ok (svc, agent)
  | none =>
    let model : BedrockModel :=
      { model_id := svc.settings.model_id
        region_name := svc.settings.aws_region
        temperature := svc.settings.temperature
        max_tokens := svc.settings.max_tokens
        profile_name :=
          if truthyOpt svc.settings.aws_profile then svc.settings.aws_profile
          else none }
    let conversation_manager : SlidingWindowConversationManager :=
      { window_size := svc.settings.conversation_window_size
        should_truncate_results := true }
    match svc.create_session_manager session_id actor_id with
    | Except.error e => Except.error e
    | Except.ok session_manager =>
      let agent : Agent :=
        { uid := svc.nextId
          model := model
          tools := ["retrieve"]
          system_prompt :=
            [SystemContentBlock.text supervisorSystemPrompt,
             SystemContentBlock.cachePoint]
          conversation_manager := conversation_manager
          session_manager := session_manager }
      Except.ok
        ({ svc with
            agents := svc.agents ++ [(session_id, agent)]
            nextId := svc.nextId + 1 },
         agent)

/-- Result shape of `AgentService.get_session_info`. -/
structure SessionInfo where
  active_sessions : Nat
  session_ids : List String
deriving DecidableEq, Repr

/-- `AgentService.get_session_info` (services.py lines 241–247). -/
def AgentService.get_session_info (svc : AgentService) : SessionInfo :=
  { active_sessions := svc.agents.length
    session_ids := svc.agents.map Prod.fst }

/-- `AgentService.cleanup_session` (services.py lines 229–239). -/
def AgentService.cleanup_session (svc : AgentService) (session_id : String) :
    AgentService :=
  { svc with agents := svc.agents.filter (fun p => p.1 ≠ session_id) }

/-! ## `app/tools.py` — the `retrieve` tool clamp -/

/-- The `input` entry of a `ToolUse` as the wrapped `retrieve` tool would
rewrite it: only the `numberOfResults` key is inspected or rewritten; every
other key passes through untouched (kept abstract as `rest`). -/
structure RetrieveToolInput where
  text : Option String
  numberOfResults : Option Int
  rest : List (String × String)
deriving DecidableEq, Repr

/-- A strands `ToolUse`: a `TypedDict` with the keys `toolUseId`, `name`
and `input`, read by item access (`tool["input"]`). -/
structure ToolUse where
  toolUseId : String
  name : String
  input : RetrieveToolInput
deriving DecidableEq, Repr

/-- The runtime value of the guard
`hasattr(tool, 'input') and isinstance(tool.input, dict)` (tools.py line
49): `ToolUse` is a `TypedDict`, i.e. a plain `dict` at runtime whose
`input` entry is a *key*, not an attribute, so `hasattr(tool, 'input')` is
always false (and the conjunction short-circuits). -/
def toolUse_hasattr_input : Bool := false

/-- The input rewrite the guarded block of `retrieve` (tools.py lines
50–54) would perform on `tool.input`: absent count defaults to 3, a
present count is capped at 5 via `min`. -/
def retrieve_transform (input : RetrieveToolInput) : RetrieveToolInput :=
  match input.numberOfResults with
  | none => { input with numberOfResults := some 3 }
  | some v => { input with numberOfResults := some (min v 5) }

/-- `retrieve` itself (tools.py lines 32–56): when the attribute guard
holds, rewrite the input, then call the underlying retrieval exactly once;
since the guard is always false for the `TypedDict` argument, the call
always delegates with the input unmodified. `base` abstracts
`_retrieve_base`. -/
def retrieve {ToolResult : Type} (base : ToolUse → ToolResult)
    (tool : ToolUse) : ToolResult :=
  if toolUse_hasattr_input then
    base { tool with input := retrieve_transform tool.input }
  else
    base tool

/-! ## `app/main.py` — HTTP session-id resolution -/

/-- The session-id resolution of `invoke_agent` (main.py lines 171–179):
`headers.get(runtime-session-header) or request.session_id or str(uuid4())`,
Python `or` taking the first truthy (non-None, non-empty) value. -/
def resolveSessionId (runtimeHeader payloadSessionId : Option String)
    (fresh : String) : String :=
  if truthyOpt runtimeHeader then runtimeHeader.getD ""
  else if truthyOpt payloadSessionId then payloadSessionId.getD ""
  else fresh

/-! ## `app/services.py` — stream normalization -/

/-- `current_tool_use` value of a raw backend event (a dict with optional
`name` / `toolUseId` keys). -/
structure ToolUseInfo where
  name : Option String
  toolUseId : Option String
deriving DecidableEq, Repr

/-- `message` value of a raw backend event (a dict with an optional
`role` key). -/
structure MessageInfo where
  role : Option String
deriving DecidableEq, Repr

/-- A raw event yielded by `agent.stream_async` as `process_message_stream`
reads it: `Option` marks dict-key presence; the lifecycle flags model
`event.get(k, False)` truthiness. -/
structure RawEvent where
  data : Option String
  init_event_loop : Bool
  start_event_loop : Bool
  complete : Bool
  force_stop : Bool
  force_stop_reason : Option String
  current_tool_use : Option ToolUseInfo
  message : Option MessageInfo
  result : Option String
deriving DecidableEq, Repr

/-- A raw backend event carrying no interesting field. -/
def RawEvent.empty : RawEvent :=
  { data := none, init_event_loop := false, start_event_loop := false
    complete := false, force_stop := false, force_stop_reason := none
    current_tool_use := none, message := none, result := none }

/-- The `filtered_event` dict built by `process_message_stream`
(services.py lines 182–222), metadata stamping included. -/
structure FilteredEvent where
  data : Option String
  init_event_loop : Bool
  start_event_loop : Bool
  complete : Bool
  force_stop : Bool
  force_stop_reason : Option String
  tool_name : Option String
  tool_use_id : Option String
  message_role : Option String
  result : Option String
  session_id : String
  timestamp : String
  model : String
deriving DecidableEq, Repr

/-- Build the `filtered_event` for one raw event, in source order:
copy `data`, truthy lifecycle flags, tool name / id when `current_tool_use`
is a dict with a truthy field, message role likewise, `result` when present,
then stamp `session_id`, `timestamp` (`datetime.now`, abstracted as `ts`)
and `model`. -/
def filter_event (e : RawEvent) (session_id ts model : String) :
    FilteredEvent :=
  { data := e.data
    init_event_loop := e.init_event_loop
    start_event_loop := e.start_event_loop
    complete := e.complete
    force_stop := e.force_stop
    force_stop_reason :=
      if e.force_stop then some (e.force_stop_reason.getD "unknown") else none
    tool_name :=
      match e.current_tool_use with
      | some tu => if truthyOpt tu.name then tu.name else none
      | none => none
    tool_use_id :=
      match e.current_tool_use with
      | some tu => if truthyOpt tu.toolUseId then tu.toolUseId else none
      | none => none
    message_role :=
      match e.message with
      | some m => if truthyOpt m.role then m.role else none
      | none => none
    result := e.result
    session_id := session_id
    timestamp := ts
    model := model }

/-- The final yield guard of `process_message_stream` (services.py lines
224–227): the filtered event is forwarded only when one of the listed keys
is present in it. -/
def FilteredEvent.meaningful (f : FilteredEvent) : Bool :=
  f.data.isSome || f.init_event_loop || f.start_event_loop || f.complete
    || f.force_stop || f.tool_name.isSome || f.result.isSome

/-- `AgentService.process_message_stream` (services.py lines 159–227)
restricted to its per-event loop: normalize each backend event in order and
yield it only when meaningful. (The `get_or_create_agent` prologue is
modelled separately where a claim needs it.) -/
def process_message_stream (events : List RawEvent)
    (session_id ts model : String) : List FilteredEvent :=
  match events with
  | [] => []
  | e :: rest =>
    let f := filter_event e session_id ts model
    if f.meaningful then f :: process_message_stream rest session_id ts model
    else process_message_stream rest session_id ts model

/-! ## `app/main.py` — streaming response generator -/

/-- An exception raised by the backend stream, split by the two `except`
clauses of `generate_stream`: the application `ValidationError` class versus
any other `Exception`. The Strands backend itself never raises the
application ValidationError class; its failures are generic exceptions. -/
inductive StreamErr where
  | validationErr (msg : String)
  | genericErr (msg : String)
deriving DecidableEq, Repr

/-- Exception text of a stream error (Python `str(e)`). -/
def StreamErr.msg : StreamErr → String
  | .validationErr m => m
  | .genericErr m => m

/-- One step of the backend async iteration: either a yielded raw event or
an exception raised at that point (after which the Python generator produces
nothing further, so any items listed behind a `raised` are unreachable). -/
inductive BackendItem where
  | ev (e : RawEvent)
  | raised (err : StreamErr)
deriving DecidableEq, Repr

/-- One SSE frame written by `generate_stream`: either a serialized
forwarded event, or the terminal error event `{error, session_id,
timestamp}` (main.py lines 205–212). -/
inductive Frame where
  | event (f : FilteredEvent)
  | error (msg session_id ts : String)
deriving DecidableEq, Repr

/-- Outcome of iterating the `generate_stream` generator to exhaustion:
either it ends normally after the listed frames, or an exception escapes
after the listed frames (only the re-raised `ValidationError` path). -/
inductive StreamOutcome where
  | done (frames : List Frame)
  | raisedAfter (frames : List Frame) (msg : String)
deriving DecidableEq, Repr

/-- Prepend an already-sent frame to a stream outcome. -/
def StreamOutcome.cons (fr : Frame) : StreamOutcome → StreamOutcome
  | .done fs => .done (fr :: fs)
  | .raisedAfter fs m => .raisedAfter (fr :: fs) m

/-- `generate_stream` (main.py lines 191–212): forward each meaningful
normalized event as one frame; on a backend `ValidationError` re-raise
(frames already yielded stay sent); on any other exception emit exactly one
terminal error frame and end the stream. -/
def generate_stream (items : List BackendItem)
    (session_id ts model : String) : StreamOutcome :=
  match items with
  | [] => .done []
  | .ev e :: rest =>
    let f := filter_event e session_id ts model
    if f.meaningful then
      (generate_stream rest session_id ts model).cons (Frame.event f)
    else generate_stream rest session_id ts model
  | .raised (.validationErr m) :: _ => .raisedAfter [] m
  | .raised (.genericErr m) :: _ => .done [Frame.error m session_id ts]

/-! ## `app/main.py` — the `/invocations` route -/

/-- `InvocationRequest` (models.py lines 8–13). -/
structure InvocationRequest where
  prompt : String
  session_id : Option String
  actor_id : Option String
deriving DecidableEq, Repr

/-- `InvocationResponse` (models.py lines 16–22); `output` is the dict
`\x7b"response": output_response\x7d`. -/
structure InvocationResponse where
  output_response : String
  session_id : String
  timestamp : String
  model : String
deriving DecidableEq, Repr

/-- An observable interaction with the agent layer, used to state that
validation failures happen before any agent is created or any backend call
is made. -/
inductive Effect where
  | createAgent (session_id : String)
  | invokeBackend (session_id prompt : String)
  | streamBackend (session_id prompt : String)
deriving DecidableEq, Repr

/-- `AgentService.process_message` (services.py lines 129–157), with the
blocking `agent(prompt)` call abstracted as its result `backend`
(`Except.error` = the call raised). Returns the Python result dict plus the
effect trace; a raised exception propagates (`Except.error`). -/
def process_message (svc : AgentService) (backend : Except String String)
    (prompt session_id : String) (actor_id : Option String) (ts : String) :
    Except String (AgentService × InvocationResponse) × List Effect :=
  match svc.get_or_create_agent session_id actor_id with
  | Except.error e => (Except.error e, [])
  | Except.ok (svc', _) =>
    let created :=
      if (List.lookup session_id svc.agents).isNone then
        [Effect.createAgent session_id]
      else []
    match backend with
    | Except.error e =>
      (Except.error e, created ++ [Effect.invokeBackend session_id prompt])
    | Except.ok response =>
      (Except.ok (svc',
          { output_response := response
            session_id := session_id
            timestamp := ts
            model := svc.settings.model_id }),
       created ++ [Effect.invokeBackend session_id prompt])

/-- The HTTP-visible outcome of the `/invocations` route. -/
inductive InvokeOutcome where
  | validationError (message field : String)
  | jsonResponse (r : InvocationResponse)
  | streamingResponse (s : StreamOutcome)
  | agentError (message errDetail session_id : String)
deriving DecidableEq, Repr

/-- HTTP status assigned by the exception handlers of `app/exceptions.py`
(ValidationError → 400, AgentError → 500) and FastAPI for plain returns. -/
def outcomeHttpStatus : InvokeOutcome → Nat
  | .validationError _ _ => 400
  | .agentError _ _ _ => 500
  | _ => 200

/-- `invoke_agent` (main.py lines 135–250): validate the prompt, resolve the
session id, negotiate streaming from the `accept` / `x-stream` headers, and
dispatch. Backend behaviour is abstracted as `batchBackend` (result of
`agent(prompt)`) and `streamItems` (the `stream_async` iteration). Returns
the outcome, the successor service state, and the effect trace. -/
def invoke_agent (svc : AgentService) (req : InvocationRequest)
    (runtimeHeader acceptHeader xstreamHeader : Option String)
    (fresh : String) (batchBackend : Except String String)
    (streamItems : List BackendItem) (ts : String) :
    InvokeOutcome × AgentService × List Effect :=
  if pyStrip req.prompt = "" then
    (InvokeOutcome.validationError "Prompt is required and cannot be empty"
      "prompt", svc, [])
  else
    let session_id := resolveSessionId runtimeHeader req.session_id fresh
    let accept := (acceptHeader.getD "").toLower
    let is_streaming :=
      pyContains accept "text/event-stream"
        || pyContains accept "application/x-ndjson"
        || ((xstreamHeader.getD "").toLower = "true")
    if is_streaming then
      match svc.get_or_create_agent session_id req.actor_id with
      | Except.error e =>
        (InvokeOutcome.streamingResponse
          (StreamOutcome.done [Frame.error e session_id ts]), svc, [])
      | Except.ok (svc', _) =>
        let created :=
          if (List.lookup session_id svc.agents).isNone then
            [Effect.createAgent session_id]
          else []
        (InvokeOutcome.streamingResponse
          (generate_stream streamItems session_id ts svc.settings.model_id),
         svc', created ++ [Effect.streamBackend session_id req.prompt])
    else
      match process_message svc batchBackend req.prompt session_id
          req.actor_id ts with
      | (Except.error e, effs) =>
        (InvokeOutcome.agentError "Failed to process agent invocation" e
          session_id, svc, effs)
      | (Except.ok (svc', r), effs) =>
        (InvokeOutcome.jsonResponse r, svc', effs)

/-! ## `app/main.py` — the `/ws` WebSocket endpoint -/

/-- Python `s.rstrip(")")`: drop every trailing `)` character. -/
def rstripParen (s : String) : String :=
  String.mk ((s.data.reverse.dropWhile (fun c => c = ')')).reverse)

/-- Method 1 of the WebSocket session resolution (main.py lines 277–285):
when `"Session:"` occurs in the User-Agent header, take
`user_agent.split("Session:")[1]`, strip it, and rstrip a closing paren. -/
def parseUserAgentSession (user_agent : String) : Option String :=
  let parts := pySplit user_agent "Session:"
  if parts.length ≥ 2 then
    some (rstripParen (pyStrip ((parts.get? 1).getD "")))
  else none

/-- Connection-time session-id resolution of `websocket_endpoint` (main.py
lines 274–297): User-Agent token, then the AgentCore runtime session header,
then the generic `x-session-id` header, else a fresh uuid; each fallthrough
is guarded by Python `if not session_id` (None or empty). -/
def wsResolveSessionId (userAgent agentcoreHeader xSessionHeader :
    Option String) (fresh : String) : String :=
  let s1 := parseUserAgentSession (userAgent.getD "")
  let s2 := if truthyOpt s1 then s1 else agentcoreHeader
  let s3 := if truthyOpt s2 then s2 else xSessionHeader
  if truthyOpt s3 then s3.getD "" else fresh

/-- Per-message session id (main.py line 313):
`message.get("session_id", session_id)` — the payload value, when the key is
present, replaces the connection-resolved id with no truthiness check. -/
def wsMessageSessionId (connSessionId : String)
    (payloadSessionId : Option String) : String :=
  payloadSessionId.getD connSessionId

/-- One inbound WebSocket text message, as the receive loop classifies it:
either `json.loads` raises (`malformed`), or a parsed dict with optional
`prompt` / `session_id` keys plus the backend stream its turn would
consume. -/
inductive WsInbound where
  | malformed
  | message (prompt : Option String) (session_id : Option String)
      (backend : List BackendItem)
deriving DecidableEq, Repr

/-- One outbound WebSocket text frame: an error dict (`session_id` absent
for the invalid-JSON and mid-stream exception frames) or a forwarded
stream event. -/
inductive WsOutbound where
  | errorFrame (message : String) (session_id : Option String) (ts : String)
  | eventFrame (f : FilteredEvent)
deriving DecidableEq, Repr

/-- The streaming part of one WebSocket turn (main.py lines 323–339):
forward each meaningful normalized event; any exception from the iteration
is caught by the surrounding `except Exception` and answered with exactly
one error frame (no `session_id` key), after which the turn ends but the
connection survives. -/
def ws_stream_events (items : List BackendItem)
    (session_id ts model : String) : List WsOutbound :=
  match items with
  | [] => []
  | .ev e :: rest =>
    let f := filter_event e session_id ts model
    if f.meaningful then
      WsOutbound.eventFrame f :: ws_stream_events rest session_id ts model
    else ws_stream_events rest session_id ts model
  | .raised err :: _ => [WsOutbound.errorFrame err.msg none ts]

/-- The body of the receive loop for one inbound message (main.py lines
306–339): invalid JSON → one error frame; empty or whitespace-only prompt →
one error frame carrying the per-message session id; otherwise stream the
turn. In every case the loop continues. -/
def ws_handle_message (connSessionId model ts : String) :
    WsInbound → List WsOutbound
  | .malformed => [WsOutbound.errorFrame "Invalid JSON format" none ts]
  | .message prompt payloadSessionId backend =>
    let message_session_id := wsMessageSessionId connSessionId payloadSessionId
    if pyStrip (prompt.getD "") = "" then
      [WsOutbound.errorFrame "Prompt is required and cannot be empty"
        (some message_session_id) ts]
    else
      ws_stream_events backend message_session_id ts model

/-- The whole receive loop (`while True: receive …`): the server processes
every inbound message in order and never closes the connection itself — the
loop only ends when the client disconnects, i.e. when the inbound sequence
is exhausted. -/
def websocket_loop (connSessionId model ts : String) :
    List WsInbound → List WsOutbound
  | [] => []
  | i :: rest =>
    ws_handle_message connSessionId model ts i
      ++ websocket_loop connSessionId model ts rest

/-! ## Helper lemmas on the session table -/

theorem lookup_append (k : String) (l₁ l₂ : List (String × Agent)) :
    List.lookup k (l₁ ++ l₂) = (List.lookup k l₁).or (List.lookup k l₂) := by
  induction l₁ with
  | nil => simp [List.lookup]
  | cons p rest ih =>
    obtain ⟨k', v⟩ := p
    by_cases h : k == k' <;> simp [List.lookup, h, ih]

theorem lookup_singleton_self (k : String) (v : Agent) :
    List.lookup k [(k, v)] = some v := by
  simp [List.lookup]

theorem contains_eq_false_of_lookup_none {k : String}
    {l : List (String × Agent)} (h : List.lookup k l = none) :
    (l.map Prod.fst).contains k = false := by
  induction l with
  | nil => simp
  | cons p rest ih =>
    obtain ⟨k', v⟩ := p
    cases hk : (k == k') with
    | true => simp only [List.lookup, hk] at h; exact absurd h (by simp)
    | false =>
      simp only [List.lookup, hk] at h
      simp only [List.map_cons, List.contains_cons, hk, Bool.false_or]
      exact ih h

/-- Case analysis on a successful `get_or_create_agent`: either the session
existed (state untouched, existing agent returned) or it did not (one fresh
agent appended, freshness counter bumped once). -/
theorem get_or_create_agent_ok_cases {svc svc' : AgentService} {s : String}
    {a : Option String} {ag : Agent}
    (h : svc.get_or_create_agent s a = Except.ok (svc', ag)) :
    (List.lookup s svc.agents = some ag ∧ svc' = svc) ∨
    (List.lookup s svc.agents = none ∧ ag.uid = svc.nextId ∧
      svc' = { svc with
                agents := svc.agents ++ [(s, ag)]
                nextId := svc.nextId + 1 }) := by
  unfold AgentService.get_or_create_agent at h
  cases hl : List.lookup s svc.agents with
  | some b =>
    rw [hl] at h
    simp only [Except.ok.injEq, Prod.mk.injEq] at h
    obtain ⟨h1, h2⟩ := h
    subst h2
    exact Or.inl ⟨rfl, h1.symm⟩
  | none =>
    rw [hl] at h
    cases hc : svc.create_session_manager s a with
    | error e => rw [hc] at h; cases h
    | ok sm =>
      rw [hc] at h
      simp only [Except.ok.injEq, Prod.mk.injEq] at h
      refine Or.inr ⟨rfl, ?_, ?_⟩
      · rw [← h.2]
      · rw [← h.1, ← h.2]

theorem get_or_create_agent_of_lookup_some {svc : AgentService} {s : String}
    {ag : Agent} (h : List.lookup s svc.agents = some ag) (a : Option String) :
    svc.get_or_create_agent s a = Except.ok (svc, ag) := by
  unfold AgentService.get_or_create_agent
  rw [h]

theorem lookup_some_of_get_or_create_ok {svc svc' : AgentService} {s : String}
    {a : Option String} {ag : Agent}
    (h : svc.get_or_create_agent s a = Except.ok (svc', ag)) :
    List.lookup s svc'.agents = some ag := by
  rcases get_or_create_agent_ok_cases h with ⟨hl, rfl⟩ | ⟨hl, _, rfl⟩
  · exact hl
  · simp [lookup_append, hl, lookup_singleton_self]

/-- A trace of further `get_or_create_agent` calls (the lock serializes
concurrent callers into such a trace); a raised call leaves the state
unchanged. -/
def runGetOrCreates (svc : AgentService) :
    List (String × Option String) → AgentService
  | [] => svc
  | c :: rest =>
    match svc.get_or_create_agent c.1 c.2 with
    | Except.ok (svc', _) => runGetOrCreates svc' rest
    | Except.error _ => runGetOrCreates svc rest

theorem lookup_preserved_step {svc svc' : AgentService} {s t : String}
    {a : Option String} {ag ag' : Agent}
    (hs : List.lookup s svc.agents = some ag)
    (h : svc.get_or_create_agent t a = Except.ok (svc', ag')) :
    List.lookup s svc'.agents = some ag := by
  rcases get_or_create_agent_ok_cases h with ⟨_, rfl⟩ | ⟨_, _, rfl⟩
  · exact hs
  · simp [lookup_append, hs]

theorem lookup_preserved_run {svc : AgentService} {s : String} {ag : Agent}
    (hs : List.lookup s svc.agents = some ag)
    (calls : List (String × Option String)) :
    List.lookup s (runGetOrCreates svc calls).agents = some ag := by
  induction calls generalizing svc with
  | nil => exact hs
  | cons c rest ih =>
    unfold runGetOrCreates
    cases h : svc.get_or_create_agent c.1 c.2 with
    | ok p =>
      obtain ⟨svc', ag'⟩ := p
      exact ih (lookup_preserved_step hs h)
    | error e => exact ih hs

/-- **C1.** `get_or_create_agent` is idempotent per session id: once a call
has constructed and returned an agent for `s`, every later call for `s`
(after any trace of further calls, the serialization the construction lock
enforces on concurrent callers) returns that same agent instance and leaves
the service state unchanged — no new agent is constructed; and for an
unseen `s` exactly one agent is constructed (the freshness counter is
bumped exactly once and the returned agent carries it). -/
theorem getOrCreate_idempotent_per_session
    (svc svc' : AgentService) (s : String) (a : Option String) (ag : Agent)
    (h : svc.get_or_create_agent s a = Except.ok (svc', ag)) :
    (∀ calls : List (String × Option String), ∀ a' : Option String,
      (runGetOrCreates svc' calls).get_or_create_agent s a'
        = Except.ok (runGetOrCreates svc' calls, ag)) ∧
    (List.lookup s svc.agents = none →
      ag.uid = svc.nextId ∧ svc'.nextId = svc.nextId + 1 ∧
      List.lookup s svc'.agents = some ag) := by
  have hsome := lookup_some_of_get_or_create_ok h
  constructor
  · intro calls a'
    exact get_or_create_agent_of_lookup_some (lookup_preserved_run hsome calls) a'
  · intro hnone
    rcases get_or_create_agent_ok_cases h with ⟨hl, rfl⟩ | ⟨hl, hu, rfl⟩
    · rw [hnone] at hl; cases hl
    · exact ⟨hu, rfl, hsome⟩

/-- **C1 witness input**: a fresh in-memory service and the agent its first
`get_or_create_agent "s1"` call constructs. -/
def exAgent : Agent :=
  { uid := 0
    model := { model_id := "us.anthropic.claude-3-5-haiku-20241022-v1:0"
               region_name := "us-west-2"
               temperature := (1 : Rat) / 10
               max_tokens := 512
               profile_name := none }
    tools := ["retrieve"]
    system_prompt :=
      [SystemContentBlock.text supervisorSystemPrompt,
       SystemContentBlock.cachePoint]
    conversation_manager := { window_size := 20, should_truncate_results := true }
    session_manager := none }

/-- The service state after that first call. -/
def exService1 : AgentService :=
  { settings := {}, agents := [("s1", exAgent)], nextId := 1 }

/-- **C1 witness**: concrete instantiation — after the first call for
`"s1"`, a repeat call (here with a different actor id) returns the same
agent and the same state. -/
theorem getOrCreate_idempotent_per_session_witness :
    exService1.get_or_create_agent "s1" (some "other-actor")
      = Except.ok (exService1, exAgent) :=
  (getOrCreate_idempotent_per_session (AgentService.mk0 {}) exService1 "s1"
    none exAgent (by rfl)).1 [] (some "other-actor")

/-- **C10.** Once a session id is mapped to an agent, `get_or_create_agent`
never replaces or rebuilds the mapping: for an existing session the
`actor_id` argument is ignored, and the original agent (with its original
session-manager binding) is returned with the state unchanged, whatever
actor id the later call passes. -/
theorem existing_session_ignores_actor
    (svc : AgentService) (s : String) (ag : Agent)
    (h : List.lookup s svc.agents = some ag) :
    ∀ a' : Option String, svc.get_or_create_agent s a' = Except.ok (svc, ag) :=
  fun a' => get_or_create_agent_of_lookup_some h a'

/-- **C10 witness**: a later call with a different actor id for the already
mapped `"s1"` returns the original agent unchanged. -/
theorem existing_session_ignores_actor_witness :
    exService1.get_or_create_agent "s1" (some "another-user")
      = Except.ok (exService1, exAgent) :=
  existing_session_ignores_actor exService1 "s1" exAgent (by rfl)
    (some "another-user")

/-- **C7.** With `session_mode = agentcore_memory` but no
`agentcore_memory_id` configured, `get_or_create_agent` for a new session
id raises the configuration `ValueError` (message as in the source, with
the quote characters around the mode name elided) and registers nothing:
the raise happens before the table write, so the error carries no successor
state, the table still has no entry for the id, and `get_session_info`
(the `listActive` debug surface) does not report it. -/
theorem agentcore_misconfig_no_partial_state
    (svc : AgentService) (s : String) (a : Option String)
    (h1 : svc.settings.session_mode = SessionMode.agentcore_memory)
    (h2 : svc.settings.agentcore_memory_id = none)
    (h3 : List.lookup s svc.agents = none) :
    svc.get_or_create_agent s a
      = Except.error
          "agentcore_memory_id is required when session_mode is agentcore_memory"
    ∧ (svc.get_session_info.session_ids.contains s) = false := by
  constructor
  · unfold AgentService.get_or_create_agent
    rw [h3]
    unfold AgentService.create_session_manager
    simp [h1, h2, truthyOpt]
  · exact contains_eq_false_of_lookup_none h3

/-- **C7 witness input**: a fresh service configured for agentcore memory
with no memory id. -/
def exMemSvc : AgentService :=
  AgentService.mk0 { session_mode := SessionMode.agentcore_memory }

/-- **C7 witness**: the concrete misconfigured service rejects session
`"s9"` and reports no active session for it. -/
theorem agentcore_misconfig_no_partial_state_witness :
    exMemSvc.get_or_create_agent "s9" none
      = Except.error
          "agentcore_memory_id is required when session_mode is agentcore_memory"
    ∧ (exMemSvc.get_session_info.session_ids.contains "s9") = false :=
  agentcore_misconfig_no_partial_state exMemSvc "s9" none rfl rfl rfl

/-- **C2.** HTTP session-id resolution takes the first non-empty value
among the AgentCore runtime header, the payload `session_id`, and a fresh
uuid: a non-empty header id `H` wins over any payload; with no truthy
header, a non-empty payload id `P` wins; with neither, the resolved id is
the freshly generated identifier, which is non-empty and distinct from
every other generated identifier. -/
theorem invoke_session_id_precedence (h p : Option String) (n : Nat) :
    (∀ H, h = some H → H ≠ "" → resolveSessionId h p (genUUID n) = H) ∧
    (¬ truthyOpt h = true → ∀ P, p = some P → P ≠ "" →
        resolveSessionId h p (genUUID n) = P) ∧
    (¬ truthyOpt h = true → ¬ truthyOpt p = true →
        resolveSessionId h p (genUUID n) = genUUID n ∧ genUUID n ≠ "" ∧
        ∀ m, m ≠ n → genUUID m ≠ genUUID n) := by
  refine ⟨?_, ?_, ?_⟩
  · rintro H rfl hH
    simp [resolveSessionId, truthyOpt, hH]
  · rintro hh P rfl hP
    rw [Bool.not_eq_true] at hh
    simp only [resolveSessionId]
    rw [hh]
    simp [truthyOpt, hP]
  · intro hh hp
    simp only [Bool.not_eq_true] at hh hp
    refine ⟨by simp [resolveSessionId, hh, hp], genUUID_ne_empty n, ?_⟩
    intro m hm hc
    exact hm (genUUID_injective hc)

/-- **C2 witness**: with header id `"H"` and payload id `"P"` the resolved
id is `"H"`. -/
theorem invoke_session_id_precedence_witness :
    resolveSessionId (some "H") (some "P") (genUUID 0) = "H" :=
  (invoke_session_id_precedence (some "H") (some "P") 0).1 "H" rfl (by decide)

/-- **C4** (code bug). The clamp of the `retrieve` wrapper is dead code:
the guard `hasattr(tool, 'input') and isinstance(tool.input, dict)` is
never true for the `TypedDict` `ToolUse` argument, so the wrapper always
delegates with the caller's input unmodified — a request for 9 results
reaches the underlying retrieval as 9 (the claim, and the wrapper's own
comments "default to 3" / "Cap at 5 for performance", expect 5), and an
absent count is not defaulted to 3. The last conjunct records the rewrite
the dead block was written to perform, matching the claim's numbers. -/
theorem retrieve_clamp_dead_code :
    (∀ (R : Type) (base : ToolUse → R) (tool : ToolUse),
        retrieve base tool = base tool) ∧
    retrieve (fun t => t.input.numberOfResults)
        ⟨"t1", "retrieve", ⟨some "q", some 9, []⟩⟩ = some 9 ∧
    retrieve (fun t => t.input.numberOfResults)
        ⟨"t2", "retrieve", ⟨some "q", none, []⟩⟩ = none ∧
    (retrieve_transform ⟨some "q", none, []⟩).numberOfResults = some 3 ∧
    (retrieve_transform ⟨some "q", some 9, []⟩).numberOfResults = some 5 ∧
    (retrieve_transform ⟨some "q", some 2, []⟩).numberOfResults = some 2 :=
  ⟨fun _ _ _ => rfl, rfl, rfl, rfl, rfl, rfl⟩

/-- **C3.** An invocation whose prompt is empty or whitespace-only after
trimming is rejected with the `ValidationError` (mapped to HTTP 400 by
`validation_error_handler`, distinct from the 500 `AgentError` execution
failures) before anything else happens: the service state is unchanged and
the effect trace is empty — no agent is created and no backend call (batch
or streaming) is made. -/
theorem empty_prompt_rejected_before_backend
    (svc : AgentService) (req : InvocationRequest)
    (rh ah xh : Option String) (fresh : String)
    (bb : Except String String) (si : List BackendItem) (ts : String)
    (h : pyStrip req.prompt = "") :
    invoke_agent svc req rh ah xh fresh bb si ts
      = (InvokeOutcome.validationError "Prompt is required and cannot be empty"
          "prompt", svc, [])
    ∧ outcomeHttpStatus (invoke_agent svc req rh ah xh fresh bb si ts).1
        = 400 := by
  constructor
  · simp [invoke_agent, h]
  · simp [invoke_agent, h, outcomeHttpStatus]

/-- **C3 witness**: a whitespace-only prompt on a fresh service is rejected
with status 400, an unchanged service, and an empty effect trace. -/
theorem empty_prompt_rejected_before_backend_witness :
    invoke_agent (AgentService.mk0 {}) ⟨"   ", some "s", none⟩ none none none
        "f" (Except.ok "resp") [] "t"
      = (InvokeOutcome.validationError "Prompt is required and cannot be empty"
          "prompt", AgentService.mk0 {}, [])
    ∧ outcomeHttpStatus (invoke_agent (AgentService.mk0 {})
        ⟨"   ", some "s", none⟩ none none none "f" (Except.ok "resp") []
        "t").1 = 400 :=
  empty_prompt_rejected_before_backend (AgentService.mk0 {})
    ⟨"   ", some "s", none⟩ none none none "f" (Except.ok "resp") [] "t"
    (by rfl)

/-- The raw-level reading of the forwarding guard: the event carries
partial text (a `data` key), a truthy lifecycle marker, a tool name
(`current_tool_use` dict with a truthy `name`), or a final `result`. -/
def rawForwarded (e : RawEvent) : Bool :=
  e.data.isSome || e.init_event_loop || e.start_event_loop || e.complete
    || e.force_stop
    || (match e.current_tool_use with
        | some tu => truthyOpt tu.name
        | none => false)
    || e.result.isSome

theorem meaningful_filter_event (e : RawEvent) (sid ts mid : String) :
    (filter_event e sid ts mid).meaningful = rawForwarded e := by
  simp only [filter_event, FilteredEvent.meaningful, rawForwarded]
  cases e.current_tool_use with
  | none => simp
  | some tu =>
    cases h : tu.name with
    | none => simp [truthyOpt, h]
    | some s =>
      by_cases hs : s = "" <;> simp [truthyOpt, h, hs]

/-- **C5.** `process_message_stream` forwards a backend event iff, after
normalization, the filtered event carries at least one of: partial text
(`data`), a lifecycle marker (`init_event_loop`, `start_event_loop`,
`complete`, `force_stop`), a tool name, or a final `result` — all other
events are dropped, order preserved; the guard equals the raw-level
predicate `rawForwarded`; and every forwarded event is stamped with the
request session id, the timestamp, and the configured model id. -/
theorem process_message_stream_filter_and_stamp
    (events : List RawEvent) (sid ts mid : String) :
    process_message_stream events sid ts mid
      = (events.filter rawForwarded).map (fun e => filter_event e sid ts mid)
    ∧ (∀ e, (filter_event e sid ts mid).meaningful = rawForwarded e)
    ∧ (∀ f ∈ process_message_stream events sid ts mid,
        f.session_id = sid ∧ f.timestamp = ts ∧ f.model = mid) := by
  have hmain : process_message_stream events sid ts mid
      = (events.filter rawForwarded).map
          (fun e => filter_event e sid ts mid) := by
    induction events with
    | nil => rfl
    | cons e rest ih =>
      simp only [process_message_stream, meaningful_filter_event,
        List.filter_cons]
      cases h : rawForwarded e <;> simp [h, ih]
  refine ⟨hmain, fun e => meaningful_filter_event e sid ts mid, ?_⟩
  intro f hf
  rw [hmain] at hf
  obtain ⟨e, _, rfl⟩ := List.mem_map.mp hf
  exact ⟨rfl, rfl, rfl⟩

/-- A backend event carrying only partial text. -/
def textEvent (s : String) : RawEvent :=
  { RawEvent.empty with data := some s }

/-- **C6.** If the backend raises a (generic) error mid-stream, the
`generate_stream` SSE body is exactly the already-forwarded events followed
by one terminal error frame carrying the error text, the session id and a
timestamp, and then nothing: no event follows an error frame, items behind
the raise are never consumed, and no exception escapes once streaming has
begun (`StreamOutcome.done`). In particular, injecting the error after 2 of
5 text events yields exactly 2 forwarded frames, then exactly 1 error
frame, then nothing. -/
theorem generate_stream_error_terminal
    (evs : List RawEvent) (m : String) (rest : List BackendItem)
    (sid ts mid : String) :
    generate_stream (evs.map BackendItem.ev
        ++ BackendItem.raised (StreamErr.genericErr m) :: rest) sid ts mid
      = StreamOutcome.done
          ((process_message_stream evs sid ts mid).map Frame.event
            ++ [Frame.error m sid ts])
    ∧ generate_stream
        [BackendItem.ev (textEvent "c1"), BackendItem.ev (textEvent "c2"),
         BackendItem.raised (StreamErr.genericErr m),
         BackendItem.ev (textEvent "c3"), BackendItem.ev (textEvent "c4"),
         BackendItem.ev (textEvent "c5")] sid ts mid
      = StreamOutcome.done
          [Frame.event (filter_event (textEvent "c1") sid ts mid),
           Frame.event (filter_event (textEvent "c2") sid ts mid),
           Frame.error m sid ts] := by
  constructor
  · induction evs with
    | nil => simp [generate_stream, process_message_stream]
    | cons e tl ih =>
      simp only [List.map_cons, List.cons_append, generate_stream,
        process_message_stream]
      cases h : (filter_event e sid ts mid).meaningful <;>
        simp [h, ih, StreamOutcome.cons]
  · rfl

/-- **C8 counterexample.** The claim predicts that a header-resolved id
takes precedence over a payload-supplied one on the WebSocket interface.
Concretely: with User-Agent `AgentRuntime-Client/1.0 (Session: H)` the
connection id resolves to `"H"`, yet a message carrying payload
`session_id = "P"` is processed under `"P"`, not `"H"` —
`message.get("session_id", session_id)` lets the payload override the
header-resolved id. -/
theorem ws_header_precedence_counterexample :
    wsResolveSessionId (some "AgentRuntime-Client/1.0 (Session: H)") none none
        (genUUID 0) = "H"
    ∧ wsMessageSessionId
        (wsResolveSessionId (some "AgentRuntime-Client/1.0 (Session: H)") none
          none (genUUID 0)) (some "P") = "P"
    ∧ ("P" : String) ≠ "H" :=
  ⟨by rfl, by rfl, by decide⟩

/-- **C8 (amended).** On the WebSocket interface a *connection-level*
session id is resolved from headers in order — User-Agent `Session:` token,
then the AgentCore runtime session header, then the generic `x-session-id`
header, then a freshly generated id — but the per-turn session id gives the
per-message payload `session_id` field, when present, precedence over the
header-resolved id; only a message without the field uses the
header-resolved (or generated) id. -/
theorem ws_session_resolution_amended (ua ah xh : Option String)
    (fresh : String) :
    (∀ p, wsMessageSessionId (wsResolveSessionId ua ah xh fresh) (some p)
        = p) ∧
    (wsMessageSessionId (wsResolveSessionId ua ah xh fresh) none
      = wsResolveSessionId ua ah xh fresh) ∧
    (∀ t, parseUserAgentSession (ua.getD "") = some t → t ≠ "" →
      wsResolveSessionId ua ah xh fresh = t) ∧
    (truthyOpt (parseUserAgentSession (ua.getD "")) = false →
      (∀ a, ah = some a → a ≠ "" → wsResolveSessionId ua ah xh fresh = a) ∧
      (truthyOpt ah = false →
        (∀ x, xh = some x → x ≠ "" → wsResolveSessionId ua ah xh fresh = x) ∧
        (truthyOpt xh = false →
          wsResolveSessionId ua ah xh fresh = fresh))) := by
  refine ⟨fun p => rfl, rfl, ?_, ?_⟩
  · intro t ht hne
    simp [wsResolveSessionId, ht, truthyOpt, hne]
  · intro h1
    refine ⟨?_, ?_⟩
    · rintro a rfl hne
      have ha : truthyOpt (some a) = true := by simp [truthyOpt, hne]
      simp [wsResolveSessionId, h1, ha]
    · intro h2
      refine ⟨?_, ?_⟩
      · rintro x rfl hne
        have hx : truthyOpt (some x) = true := by simp [truthyOpt, hne]
        simp [wsResolveSessionId, h1, h2, hx]
      · intro h3
        simp [wsResolveSessionId, h1, h2, h3]

/-- **C8 witness** for the amended claim: the User-Agent `Session:` token
wins among the headers. -/
theorem ws_session_resolution_amended_witness :
    wsResolveSessionId (some "AgentRuntime-Client/1.0 (Session: H)") none none
        "f" = "H" :=
  (ws_session_resolution_amended
    (some "AgentRuntime-Client/1.0 (Session: H)") none none "f").2.2.1 "H"
    (by rfl) (by decide)

theorem websocket_loop_append (cs mid ts : String)
    (xs ys : List WsInbound) :
    websocket_loop cs mid ts (xs ++ ys)
      = websocket_loop cs mid ts xs ++ websocket_loop cs mid ts ys := by
  induction xs with
  | nil => rfl
  | cons i rest ih => simp [websocket_loop, ih]

/-- **C9.** A malformed (invalid-JSON) inbound WebSocket message, or one
with an empty / whitespace-only prompt, is answered with exactly one error
frame and the receive loop goes on: the messages before it and after it on
the same connection are processed exactly as they would be on their own —
the server never closes the connection over a bad message (the loop
consumes the whole inbound sequence; it ends only with the client
disconnect). -/
theorem websocket_bad_message_keeps_connection
    (cs mid ts : String) (pre post : List WsInbound) :
    (websocket_loop cs mid ts (pre ++ WsInbound.malformed :: post)
      = websocket_loop cs mid ts pre
        ++ WsOutbound.errorFrame "Invalid JSON format" none ts
          :: websocket_loop cs mid ts post) ∧
    (∀ (p : Option String) (psid : Option String)
        (backend : List BackendItem), pyStrip (p.getD "") = "" →
      websocket_loop cs mid ts (pre ++ WsInbound.message p psid backend :: post)
        = websocket_loop cs mid ts pre
          ++ WsOutbound.errorFrame "Prompt is required and cannot be empty"
              (some (wsMessageSessionId cs psid)) ts
            :: websocket_loop cs mid ts post) := by
  constructor
  · rw [websocket_loop_append]
    simp [websocket_loop, ws_handle_message]
  · intro p psid backend h
    rw [websocket_loop_append]
    simp [websocket_loop, ws_handle_message, h]

/-- **C9 witness**: a whitespace-only prompt between two other inbound
messages draws one error frame and the loop continues to the next
message. -/
theorem websocket_bad_message_keeps_connection_witness :
    websocket_loop "S" "m" "t"
        ([WsInbound.malformed]
          ++ WsInbound.message (some " ") none [] :: [WsInbound.malformed])
      = websocket_loop "S" "m" "t" [WsInbound.malformed]
        ++ WsOutbound.errorFrame "Prompt is required and cannot be empty"
            (some (wsMessageSessionId "S" none)) "t"
          :: websocket_loop "S" "m" "t" [WsInbound.malformed] :=
  (websocket_bad_message_keeps_connection "S" "m" "t" [WsInbound.malformed]
    [WsInbound.malformed]).2 (some " ") none [] (by rfl)
